import Mathlib

/-!
# libfracture: the IPC and signal wrappers of AxnoverOS

A shallow embedding of `lib/libfracture/include/ipc.h` and
`lib/libfracture/include/signal.h`.

* A static member function that reaches the kernel is a function from the
  state before the call to the result and the state after it.
* `int32_t`, `ssize_t` and `int` values are `Int`; `size_t`, `uint32_t`,
  `uint8_t` and pointer values are `Nat`.  The one narrowing conversion of the
  sources (`int32_t pid = syscall0(...)`) is written out as `toInt32`.
* `types.h` and `syscall.h` are not among the sources: the syscall primitive is
  a parameter (`syscall.Kernel`).
-/

set_option linter.dupNamespace false
set_option linter.unusedVariables false

namespace fracture

/-! ## `syscall.h` (absent): the primitive as a parameter -/

namespace syscall

/-- Modelled from the spec: `syscall.h` is not among the sources.  `MMAP`,
`MUNMAP` and `GETPID` are the enumerators of `SyscallNumber` that `ipc.h` and
`signal.h` name; `other code` stands for every enumerator they do not name. -/
inductive SyscallNumber where
  | MMAP
  | MUNMAP
  | GETPID
  | other (code : Nat)
  deriving DecidableEq, Repr

/-- Modelled from the spec: the primitive `syscall(operation_id, arg0, arg1,
arg2) -> int64` of §6, whose definition (`syscall0`, `syscall3` of `syscall.h`)
is not among the sources.  `K` is the state of all that lies behind the
primitive; a call takes the state before it to its result and the state after
it.  The arguments are the values written at the call site. -/
structure Kernel (K : Type) where
  syscall0 : SyscallNumber → K → Int × K
  syscall3 : SyscallNumber → Int → Int → Int → K → Int × K

/-- Conversion of an integer value to `int32_t` (two's complement wrap). -/
def toInt32 (x : Int) : Int := (x + 2 ^ 31) % 2 ^ 32 - 2 ^ 31

end syscall

/-! ## `ipc.h` -/

namespace ipc

open syscall

/-- The constant `MAX_MESSAGE_SIZE` of `ipc.h`. -/
def MAX_MESSAGE_SIZE : Nat := 4096

/-- The enumeration `MessageType`. -/
inductive MessageType where
  | DATA
  | SIGNAL
  | REQUEST
  | RESPONSE
  deriving DecidableEq, Repr

/-- The `uint32_t` value of a `MessageType` enumerator. -/
def MessageType.toUInt32 : MessageType → Nat
  | .DATA => 0
  | .SIGNAL => 1
  | .REQUEST => 2
  | .RESPONSE => 3

/-- The data members of `class Message`. -/
structure Message where
  sender_ : Int
  receiver_ : Int
  type_ : MessageType
  size_ : Nat
  data_ : Fin MAX_MESSAGE_SIZE → Nat

namespace Message

/-- The constructor `Message()`: it sets `sender_`, `receiver_`, `type_` and
`size_` and leaves `data_` as the storage held it, `uninit`. -/
def Message (uninit : Fin MAX_MESSAGE_SIZE → Nat) : ipc.Message :=
  { sender_ := 0, receiver_ := 0, type_ := MessageType.DATA, size_ := 0, data_ := uninit }

/-- The accessor `sender() const`. -/
def sender (m : ipc.Message) : Int := m.sender_

/-- The accessor `receiver() const`. -/
def receiver (m : ipc.Message) : Int := m.receiver_

/-- The accessor `type() const`. -/
def type (m : ipc.Message) : MessageType := m.type_

/-- The accessor `size() const`. -/
def size (m : ipc.Message) : Nat := m.size_

/-- The accessor `data() const`: a read-only view of the payload storage. -/
def data (m : ipc.Message) : Fin MAX_MESSAGE_SIZE → Nat := m.data_

end Message

namespace IPC

variable {K : Type}

/-- The function `IPC::send`: one `syscall3` request, whose result it returns. -/
def send (sys : Kernel K) (receiver : Int) (data : Nat) (size : Nat) (k : K) : Int × K :=
  sys.syscall3 SyscallNumber.MMAP receiver (data : Int) (size : Int) k

/-- The function `IPC::receive`: one `syscall3` request, whose result it returns. -/
def receive (sys : Kernel K) (buffer : Nat) (size : Nat) (k : K) : Int × K :=
  sys.syscall3 SyscallNumber.MUNMAP (buffer : Int) (size : Int) 0 k

/-- The function `IPC::has_messages`: `return false;`. -/
def has_messages (k : K) : Bool × K := (false, k)

end IPC

end ipc

/-! ## `signal.h` -/

namespace signal

open syscall

/-- The enumeration `Signal`. -/
inductive Signal where
  | SIGHUP
  | SIGINT
  | SIGQUIT
  | SIGILL
  | SIGTRAP
  | SIGABRT
  | SIGBUS
  | SIGFPE
  | SIGKILL
  | SIGUSR1
  | SIGSEGV
  | SIGUSR2
  | SIGPIPE
  | SIGALRM
  | SIGTERM
  | SIGCHLD
  | SIGCONT
  | SIGSTOP
  | SIGTSTP
  deriving DecidableEq, Repr

/-- The `uint32_t` value of a `Signal` enumerator. -/
def Signal.toUInt32 : Signal → Nat
  | .SIGHUP => 1
  | .SIGINT => 2
  | .SIGQUIT => 3
  | .SIGILL => 4
  | .SIGTRAP => 5
  | .SIGABRT => 6
  | .SIGBUS => 7
  | .SIGFPE => 8
  | .SIGKILL => 9
  | .SIGUSR1 => 10
  | .SIGSEGV => 11
  | .SIGUSR2 => 12
  | .SIGPIPE => 13
  | .SIGALRM => 14
  | .SIGTERM => 15
  | .SIGCHLD => 17
  | .SIGCONT => 18
  | .SIGSTOP => 19
  | .SIGTSTP => 20

/-- The type `SignalHandler = void (*)(int)`: a function pointer, by its
address value. -/
abbrev SignalHandler := Nat

/-- The constant `SIG_DFL = nullptr`: the null pointer, address value 0. -/
def SIG_DFL : SignalHandler := 0

/-- The variable `SIG_IGN = reinterpret_cast<SignalHandler>(1)`. -/
def SIG_IGN : SignalHandler := 1

namespace SignalManager

variable {K : Type}

/-- The function `SignalManager::kill`: `return 0;`. -/
def kill (pid : Int) (sig : Signal) (k : K) : Int × K := (0, k)

/-- The function `SignalManager::signal`: `return SIG_DFL;`. -/
def signal (sig : Signal) (handler : SignalHandler) (k : K) : SignalHandler × K :=
  (SIG_DFL, k)

/-- The function `SignalManager::raise`: the `GETPID` request, its result
stored in an `int32_t`, then `kill`. -/
def raise (sys : Kernel K) (sig : Signal) (k : K) : Int × K :=
  let r := sys.syscall0 SyscallNumber.GETPID k
  let pid := toInt32 r.1
  kill pid sig r.2

/-- The primitive `current_process_id() -> ProcessId` of the spec (§1, §6): the
`GETPID` request, its result as the `int32_t` process id. -/
def current_process_id (sys : Kernel K) (k : K) : Int × K :=
  let r := sys.syscall0 SyscallNumber.GETPID k
  (toInt32 r.1, r.2)

/-- The spec's wording of `raise` (§4.3): `kill(current_process_id(), sig)`. -/
def raise_spec (sys : Kernel K) (sig : Signal) (k : K) : Int × K :=
  let p := current_process_id sys k
  kill p.1 sig p.2

end SignalManager

/-- Modelled from the spec: the three dispositions of §3 and §9 (`Default`,
`Ignore`, `Handler(callback)`); the sources declare the two sentinels only. -/
inductive Disposition where
  | Default
  | Ignore
  | Handler (callback : SignalHandler)
  deriving DecidableEq, Repr

/-- Modelled from the spec: the reading of a registered handler value (§6):
`0` is default, `1` is ignore, any other value is a user callback. -/
def Disposition.classify (h : SignalHandler) : Disposition :=
  if h = SIG_DFL then Disposition.Default
  else if h = SIG_IGN then Disposition.Ignore
  else Disposition.Handler h

end signal

/-! ## The kernel behind the primitive, as the spec describes it -/

namespace spec

open syscall

/-- Modelled from the spec: a message queued in a mailbox (§3): sender id,
receiver id, type tag and payload bytes.  The kernel is not among the sources. -/
structure Envelope where
  sender : Int
  receiver : Int
  type : ipc.MessageType
  payload : List Nat
  deriving DecidableEq, Repr

/-- Modelled from the spec: the memory-mapping operations, which §6 calls
unrelated to IPC and §1 leaves out of scope: any two functions on a state `M`
of their own. -/
structure MemoryMapping (M : Type) where
  mmap : Int → Int → Int → M → Int × M
  munmap : Int → Int → Int → M → Int × M

/-- Modelled from the spec: the state behind the primitive: the calling
process, which process ids are live, each process's memory (a byte for each
address), each process's mailbox (§3, oldest message first) and the state of
the memory-mapping operations. -/
structure State (M : Type) where
  current : Int
  live : Int → Bool
  memory : Int → Nat → Nat
  mailbox : Int → List Envelope
  mapping : M

/-- Modelled from the spec: the error kinds of §7 as negative result codes. -/
def InvalidReceiver : Int := -1

/-- Modelled from the spec: the error kind `OversizedPayload` of §7. -/
def OversizedPayload : Int := -2

/-- Modelled from the spec: the error kind `MailboxFull` of §7. -/
def MailboxFull : Int := -3

/-- Modelled from the spec: the error kind `BufferTooSmall` of §7. -/
def BufferTooSmall : Int := -4

/-- Modelled from the spec: the error kind `TimedOut` of §7. -/
def TimedOut : Int := -5

/-- Modelled from the spec: the result of a request the kernel does not serve. -/
def NotSupported : Int := -6

/-- Modelled from the spec: the dedicated operation code for IPC send (§6). -/
def IPC_SEND : SyscallNumber := SyscallNumber.other 0

/-- Modelled from the spec: the dedicated operation code for IPC receive (§6). -/
def IPC_RECEIVE : SyscallNumber := SyscallNumber.other 1

/-- The `n` bytes of `mem` from address `addr` on. -/
def readBytes (mem : Nat → Nat) (addr n : Nat) : List Nat :=
  (List.range n).map (fun i => mem (addr + i))

/-- The memory `mem` with the bytes `bs` stored from address `addr` on. -/
def writeBytes (mem : Nat → Nat) (addr : Nat) (bs : List Nat) : Nat → Nat :=
  fun a => if addr ≤ a ∧ a < addr + bs.length then bs.getD (a - addr) 0 else mem a

variable {M : Type}

/-- Modelled from the spec: the kernel's send (§4.2): the receiver must be
live, the size at most `MAX_MESSAGE_SIZE`, the mailbox below its capacity; then
a `DATA` message with a copy of the payload goes to the tail of the receiver's
mailbox and the result is `size`. -/
def ipcSend (capacity : Nat) (receiver data size : Int) (k : State M) : Int × State M :=
  if k.live receiver = false then (InvalidReceiver, k)
  else if (ipc.MAX_MESSAGE_SIZE : Int) < size then (OversizedPayload, k)
  else if capacity ≤ (k.mailbox receiver).length then (MailboxFull, k)
  else
    let m : Envelope :=
      { sender := k.current, receiver := receiver, type := ipc.MessageType.DATA,
        payload := readBytes (k.memory k.current) data.toNat size.toNat }
    (size, { k with mailbox := Function.update k.mailbox receiver (k.mailbox receiver ++ [m]) })

/-- Modelled from the spec: the kernel's receive (§4.2) with no concurrent
sender: on an empty mailbox the wait ends in `TimedOut`; a buffer smaller than
the head message's payload gives `BufferTooSmall` and dequeues nothing; else the
oldest message is dequeued, its payload copied to the buffer, its length
returned. -/
def ipcReceive (buffer size : Int) (k : State M) : Int × State M :=
  match k.mailbox k.current with
  | [] => (TimedOut, k)
  | m :: rest =>
    if size < (m.payload.length : Int) then (BufferTooSmall, k)
    else
      ((m.payload.length : Int),
        { k with
          memory := Function.update k.memory k.current
            (writeBytes (k.memory k.current) buffer.toNat m.payload)
          mailbox := Function.update k.mailbox k.current rest })

/-- Modelled from the spec: the kernel of §4.2 and §6 behind the primitive:
`MMAP` and `MUNMAP` are the memory-mapping operations, `GETPID` gives the
calling process, IPC send and receive have the dedicated codes. -/
def kernel (mm : MemoryMapping M) (capacity : Nat) : Kernel (State M) where
  syscall0 n k :=
    match n with
    | SyscallNumber.GETPID => (k.current, k)
    | _ => (NotSupported, k)
  syscall3 n a0 a1 a2 k :=
    match n with
    | SyscallNumber.MMAP =>
      let r := mm.mmap a0 a1 a2 k.mapping
      (r.1, { k with mapping := r.2 })
    | SyscallNumber.MUNMAP =>
      let r := mm.munmap a0 a1 a2 k.mapping
      (r.1, { k with mapping := r.2 })
    | SyscallNumber.GETPID => (k.current, k)
    | SyscallNumber.other 0 => ipcSend capacity a0 a1 a2 k
    | SyscallNumber.other 1 => ipcReceive a0 a1 k
    | SyscallNumber.other _ => (NotSupported, k)

/-- Modelled from the spec: the scheduler hands the processor to process `pid`. -/
def runAs (pid : Int) (k : State M) : State M := { k with current := pid }

/-- Memory-mapping operations that refuse every request. -/
def noMapping : MemoryMapping Unit where
  mmap _ _ _ u := (NotSupported, u)
  munmap _ _ _ u := (NotSupported, u)

/-- A state with two live processes, 1 and 2, and empty mailboxes: process 1
runs and holds the byte 42 at address 100; every other byte is 0. -/
def twoProcesses (m0 : M) : State M :=
  { current := 1
    live := fun p => decide (p = 1 ∨ p = 2)
    memory := fun p a => if p = 1 ∧ a = 100 then 42 else 0
    mailbox := fun _ => []
    mapping := m0 }

end spec

/-! ## A kernel that accepts every request -/

namespace syscall

/-- A kernel whose state counts the requests it has served: `syscall3` returns
its last argument, `syscall0` returns 1. -/
def acceptAll : Kernel Nat where
  syscall0 _ k := (1, k + 1)
  syscall3 _ _ _ a2 k := (a2, k + 1)

/-- A kernel whose state is the list of the operation ids it was asked for,
oldest first; every request returns 0. -/
def recorder : Kernel (List SyscallNumber) where
  syscall0 n log := (0, log ++ [n])
  syscall3 n _ _ _ log := (0, log ++ [n])

end syscall

/-! ## Lemmas on the spec's kernel -/

namespace spec

open syscall

variable {M : Type}

theorem readBytes_length (mem : Nat → Nat) (addr n : Nat) :
    (readBytes mem addr n).length = n := by
  simp [readBytes]

theorem readBytes_writeBytes (mem : Nat → Nat) (addr : Nat) (bs : List Nat) :
    readBytes (writeBytes mem addr bs) addr bs.length = bs := by
  apply List.ext_getElem
  · simp [readBytes]
  · intro i h1 h2
    simp [readBytes, writeBytes, h2]

/-- On the spec's kernel the dedicated codes carry a payload from sender to
receiver: a send of `size <= MAX_MESSAGE_SIZE` bytes to a live receiver with an
empty mailbox, then a receive by that receiver into a buffer of `size` bytes,
both return `size`, and the buffer holds the bytes that were sent. -/
theorem dedicated_codes_roundtrip (mm : MemoryMapping M) (capacity : Nat) (k : State M)
    (receiver : Int) (data buffer size : Nat)
    (hlive : k.live receiver = true) (hsize : size ≤ ipc.MAX_MESSAGE_SIZE)
    (hempty : k.mailbox receiver = []) (hcap : 0 < capacity) :
    ((kernel mm capacity).syscall3 IPC_SEND receiver data size k).1 = size ∧
    ((kernel mm capacity).syscall3 IPC_RECEIVE buffer size 0
      (runAs receiver ((kernel mm capacity).syscall3 IPC_SEND receiver data size k).2)).1
      = size ∧
    readBytes (((kernel mm capacity).syscall3 IPC_RECEIVE buffer size 0
      (runAs receiver ((kernel mm capacity).syscall3 IPC_SEND receiver data size k).2)).2.memory
        receiver) buffer size
      = readBytes (k.memory k.current) data size := by
  have hs : ¬ ((ipc.MAX_MESSAGE_SIZE : Int) < (size : Int)) := by
    have : (size : Int) ≤ (ipc.MAX_MESSAGE_SIZE : Int) := by exact_mod_cast hsize
    omega
  have hc : ¬ capacity ≤ 0 := by omega
  have hlen := readBytes_length (k.memory k.current) data size
  have hrw := readBytes_writeBytes (k.memory receiver) buffer
    (readBytes (k.memory k.current) data size)
  rw [hlen] at hrw
  simp [kernel, IPC_SEND, IPC_RECEIVE, ipcSend, ipcReceive, runAs, hlive, hs, hempty, hc,
    hlen, hrw]

/-- The round trip through the dedicated codes at a concrete state: process 1
sends its byte 42 to process 2, which receives it at address 200. -/
theorem dedicated_codes_roundtrip_twoProcesses :
    ((kernel noMapping 4).syscall3 IPC_RECEIVE 200 1 0
      (runAs 2 ((kernel noMapping 4).syscall3 IPC_SEND 2 100 1 (twoProcesses ())).2)).1 = 1 ∧
    readBytes (((kernel noMapping 4).syscall3 IPC_RECEIVE 200 1 0
      (runAs 2 ((kernel noMapping 4).syscall3 IPC_SEND 2 100 1 (twoProcesses ())).2)).2.memory 2)
      200 1 = [42] := by
  have h := dedicated_codes_roundtrip noMapping 4 (twoProcesses ()) 2 100 200 1
    (by rfl) (by decide) (by rfl) (by decide)
  exact ⟨h.2.1, h.2.2.trans rfl⟩

end spec

/-! ## The signal layer -/

namespace signal

open syscall

/-- Claim C1: `raise(sig)` is `kill(current_process_id(), sig)`: for every
kernel, state and signal, `raise` returns the result and leaves the state that
`kill` does when given the process id the `GETPID` request produced. -/
theorem C1_raise_is_kill_of_current_process_id {K : Type} (sys : Kernel K) (sig : Signal)
    (k : K) :
    SignalManager.raise sys sig k = SignalManager.raise_spec sys sig k ∧
    SignalManager.raise sys sig k =
      SignalManager.kill (SignalManager.current_process_id sys k).1 sig
        (SignalManager.current_process_id sys k).2 ∧
    (SignalManager.current_process_id sys k).1 = toInt32 (sys.syscall0 SyscallNumber.GETPID k).1 := by
  refine ⟨rfl, rfl, rfl⟩

/-- Claim C2 (the code departs from it): `signal(sig, h1)` followed by
`signal(sig, h2)` returns `SIG_DFL` from the second call whatever `h1` was; with
`h1 = SIG_IGN` the second call does not return `h1`. -/
theorem C2_signal_second_call_returns_SIG_DFL {K : Type} (sig : Signal)
    (h1 h2 : SignalHandler) (k : K) :
    (SignalManager.signal sig h2 (SignalManager.signal sig h1 k).2).1 = SIG_DFL ∧
    (SignalManager.signal Signal.SIGUSR1 h2
      (SignalManager.signal Signal.SIGUSR1 SIG_IGN k).2).1 ≠ SIG_IGN := by
  refine ⟨rfl, ?_⟩
  simp [SignalManager.signal, SIG_DFL, SIG_IGN]

/-- Claim C4 (the code departs from it): `kill(pid, sig)` returns 0, the success
value, and changes nothing, for every pid and signal: no pid is refused. -/
theorem C4_kill_returns_success_for_every_pid {K : Type} (pid : Int) (sig : Signal) (k : K) :
    SignalManager.kill pid sig k = (0, k) ∧
    (SignalManager.kill 2147483647 Signal.SIGTERM k).1 = 0 := by
  exact ⟨rfl, rfl⟩

/-- Claim C9: the numbering of `Signal` is injective, every enumerator's value
lies in 1..20 and is not 16, every value of 1..20 other than 16 belongs to
exactly one enumerator, and `SIGUSR1 = 10`, `SIGKILL = 9`, `SIGSTOP = 19`. -/
theorem C9_signal_numbering :
    Function.Injective Signal.toUInt32 ∧
    (∀ s : Signal, 1 ≤ s.toUInt32 ∧ s.toUInt32 ≤ 20 ∧ s.toUInt32 ≠ 16) ∧
    (∀ v : Nat, 1 ≤ v → v ≤ 20 → v ≠ 16 → ∃! s : Signal, s.toUInt32 = v) ∧
    Signal.SIGUSR1.toUInt32 = 10 ∧ Signal.SIGKILL.toUInt32 = 9 ∧
    Signal.SIGSTOP.toUInt32 = 19 := by
  have hinj : Function.Injective Signal.toUInt32 := by
    intro a b h
    cases a <;> cases b <;> first | rfl | (simp [Signal.toUInt32] at h)
  refine ⟨hinj, ?_, ?_, rfl, rfl, rfl⟩
  · intro s
    cases s <;> simp [Signal.toUInt32]
  · intro v h1 h20 h16
    have hex : ∃ s : Signal, s.toUInt32 = v := by
      interval_cases v
      · exact ⟨Signal.SIGHUP, rfl⟩
      · exact ⟨Signal.SIGINT, rfl⟩
      · exact ⟨Signal.SIGQUIT, rfl⟩
      · exact ⟨Signal.SIGILL, rfl⟩
      · exact ⟨Signal.SIGTRAP, rfl⟩
      · exact ⟨Signal.SIGABRT, rfl⟩
      · exact ⟨Signal.SIGBUS, rfl⟩
      · exact ⟨Signal.SIGFPE, rfl⟩
      · exact ⟨Signal.SIGKILL, rfl⟩
      · exact ⟨Signal.SIGUSR1, rfl⟩
      · exact ⟨Signal.SIGSEGV, rfl⟩
      · exact ⟨Signal.SIGUSR2, rfl⟩
      · exact ⟨Signal.SIGPIPE, rfl⟩
      · exact ⟨Signal.SIGALRM, rfl⟩
      · exact ⟨Signal.SIGTERM, rfl⟩
      · exact absurd rfl h16
      · exact ⟨Signal.SIGCHLD, rfl⟩
      · exact ⟨Signal.SIGCONT, rfl⟩
      · exact ⟨Signal.SIGSTOP, rfl⟩
      · exact ⟨Signal.SIGTSTP, rfl⟩
    obtain ⟨s, hs⟩ := hex
    exact ⟨s, hs, fun t ht => hinj (ht.trans hs.symm)⟩

/-- Claim C10: `SIG_DFL` has the value 0 and `SIG_IGN` the value 1, the two
differ, and every handler value is of exactly one kind: default exactly when it
is 0, ignore exactly when it is 1, a user callback (the value itself) exactly
when it is neither. -/
theorem C10_handler_sentinels :
    SIG_DFL = 0 ∧ SIG_IGN = 1 ∧ SIG_DFL ≠ SIG_IGN ∧
    ∀ h : SignalHandler,
      (Disposition.classify h = Disposition.Default ↔ h = 0) ∧
      (Disposition.classify h = Disposition.Ignore ↔ h = 1) ∧
      (Disposition.classify h = Disposition.Handler h ↔ (h ≠ 0 ∧ h ≠ 1)) ∧
      (∀ c, Disposition.classify h = Disposition.Handler c → c = h) := by
  refine ⟨rfl, rfl, by decide, ?_⟩
  intro h
  by_cases h0 : h = 0
  · subst h0
    simp [Disposition.classify, SIG_DFL, SIG_IGN]
  · by_cases hone : h = 1
    · subst hone
      simp [Disposition.classify, SIG_DFL, SIG_IGN]
    · simp [Disposition.classify, SIG_DFL, SIG_IGN, h0, hone]

end signal

/-! ## The IPC layer -/

namespace ipc

open syscall

/-- Claim C3 (as stated it fails): a send of 4097 bytes, more than
`MAX_MESSAGE_SIZE`, on a kernel that accepts every request does not fail and
changes the state: the request was forwarded. -/
theorem C3_oversized_send_is_forwarded :
    MAX_MESSAGE_SIZE < 4097 ∧
    ¬ ((IPC.send acceptAll 2 65536 4097 0).1 < 0) ∧
    (IPC.send acceptAll 2 65536 4097 0).2 ≠ 0 := by
  simp [MAX_MESSAGE_SIZE, IPC.send, acceptAll]

/-- Claim C3 (amended): `send` checks no size: for every kernel, receiver, data
pointer, size and state it is one request to the primitive, with receiver,
data pointer and size as given, and its result and the state after it are the
primitive's. -/
theorem C3_send_is_the_primitive_request :
    ∃ n : SyscallNumber, ∀ (K : Type) (sys : Kernel K) (receiver : Int) (data size : Nat)
      (k : K),
      IPC.send sys receiver data size k
        = sys.syscall3 n receiver (data : Int) (size : Int) k :=
  ⟨SyscallNumber.MMAP, fun _ _ _ _ _ _ => rfl⟩

/-- Claim C5 (the code departs from it): `has_messages` returns false right
after a send, whatever the send returned; on a kernel that accepts every
request a send of 8 bytes returns 8 and `has_messages` is false after it. -/
theorem C5_has_messages_false_after_send {K : Type} (sys : Kernel K) (receiver : Int)
    (data size : Nat) (k : K) :
    (IPC.has_messages (IPC.send sys receiver data size k).2).1 = false ∧
    (IPC.send acceptAll 2 65536 8 0).1 = 8 ∧
    (IPC.has_messages (IPC.send acceptAll 2 65536 8 0).2).1 = false := by
  refine ⟨rfl, ?_, rfl⟩
  simp [IPC.send, acceptAll]

/-- Claim C6 (the code departs from it): the request of `send` carries the
operation id `MMAP` and the request of `receive` the operation id `MUNMAP`, on
every kernel; a kernel that records the ids it is asked for records `MMAP` for
a send and `MUNMAP` for a receive. -/
theorem C6_send_uses_MMAP_receive_uses_MUNMAP {K : Type} (sys : Kernel K) (receiver : Int)
    (data buffer size : Nat) (k : K) :
    IPC.send sys receiver data size k
      = sys.syscall3 SyscallNumber.MMAP receiver (data : Int) (size : Int) k ∧
    IPC.receive sys buffer size k
      = sys.syscall3 SyscallNumber.MUNMAP (buffer : Int) (size : Int) 0 k ∧
    (IPC.send recorder receiver data size []).2 = [SyscallNumber.MMAP] ∧
    (IPC.receive recorder buffer size []).2 = [SyscallNumber.MUNMAP] :=
  ⟨rfl, rfl, rfl, rfl⟩

/-- Claim C7 (the code departs from it): on the spec's kernel, `send` followed
by `receive` in the receiver queues nothing, dequeues nothing and writes no
byte: mailboxes and memory are as before, and the result of `receive` is that
of the unmap operation.  With process 1 sending its byte 42 to process 2, the
buffer of process 2 holds 0 afterwards. -/
theorem C7_send_then_receive_delivers_nothing {M : Type} (mm : spec.MemoryMapping M)
    (capacity : Nat) (k : spec.State M) (receiver : Int) (data buffer size : Nat) (m0 : M) :
    (IPC.send (spec.kernel mm capacity) receiver data size k).2.mailbox = k.mailbox ∧
    (IPC.receive (spec.kernel mm capacity) buffer size
      (spec.runAs receiver (IPC.send (spec.kernel mm capacity) receiver data size k).2)).2.mailbox
      = k.mailbox ∧
    (IPC.receive (spec.kernel mm capacity) buffer size
      (spec.runAs receiver (IPC.send (spec.kernel mm capacity) receiver data size k).2)).2.memory
      = k.memory ∧
    (IPC.receive (spec.kernel mm capacity) buffer size
      (spec.runAs receiver (IPC.send (spec.kernel mm capacity) receiver data size k).2)).1
      = (mm.munmap buffer size 0 (mm.mmap receiver data size k.mapping).2).1 ∧
    spec.readBytes ((spec.twoProcesses m0).memory 1) 100 1 = [42] ∧
    spec.readBytes ((IPC.receive (spec.kernel mm capacity) 200 1
      (spec.runAs 2 (IPC.send (spec.kernel mm capacity) 2 100 1
        (spec.twoProcesses m0)).2)).2.memory 2) 200 1 = [0] := by
  refine ⟨rfl, rfl, rfl, rfl, ?_, ?_⟩
  · rfl
  · rfl

/-- Claim C8: the message the one constructor yields has size 0, which is at
most `MAX_MESSAGE_SIZE`, sender 0, receiver 0 and type `DATA`, whatever the
payload storage held; the accessors are the projections of its members. -/
theorem C8_constructed_message_within_bound (uninit : Fin MAX_MESSAGE_SIZE → Nat) :
    (Message.Message uninit).size ≤ MAX_MESSAGE_SIZE ∧
    (Message.Message uninit).size = 0 ∧
    (Message.Message uninit).sender = 0 ∧
    (Message.Message uninit).receiver = 0 ∧
    (Message.Message uninit).type = MessageType.DATA ∧
    (Message.Message uninit).data = uninit ∧
    MAX_MESSAGE_SIZE = 4096 := by
  refine ⟨?_, rfl, rfl, rfl, rfl, rfl, rfl⟩
  simp [Message.Message, Message.size]

end ipc

end fracture
